import Mathlib

/-!
Verification of the aionanoleaf client library.

Shallow embedding of the aionanoleaf Python library (device state cache,
event model, SSE event-stream engine, UDP touch-telemetry decoder, and the
request/command paths), with theorems settling the specification claims.

Conventions of the embedding:
* Python values that can be `int`, `str` or `bool` are modelled by `PyValue`.
* Python exceptions are modelled by the enumeration `PyExc`; a fallible
  Python expression becomes an `Except PyExc` value.
* The dictionaries used as closed lookup tables become association lists;
  subscripting a dict (`tbl[k]`) becomes `pyDictGet`, which fails with
  `PyExc.keyError` on a missing key, exactly like Python's `dict.__getitem__`.
* `events.py` / `nanoleaf.py` attribute names are kept where Lean allows.
-/

/-- A loosely-typed Python value (int, str or bool), as carried by the
JSON event payloads and stored in the device state cache. -/
inductive PyValue
  | int (n : Int)
  | str (s : String)
  | bool (b : Bool)
deriving DecidableEq

/-- The exceptions that the embedded code can raise.

Modelled from the spec: `exceptions.py` is not under `src/`, so the package
exception taxonomy (spec section 7: `Unavailable`, `InvalidToken`,
`Unauthorized`, `NoAuthToken`, `InvalidEffect`, and the base
`NanoleafException`; the spec additionally names `MalformedTelemetry` and
`UnknownEventType`) is modelled as a family of library-specific exception
kinds, rooted at the language's base `Exception` class.  `keyError` and
`valueError` are Python's built-in `KeyError` / `ValueError`;
`clientResponseError` is the HTTP library's `raise_for_status` failure.
`malformedTelemetry` is listed in the spec's taxonomy but is raised nowhere
in the code under `src/`. -/
inductive PyExc
  | keyError
  | valueError
  | nanoleafException
  | invalidToken
  | unavailable
  | clientResponseError
  | malformedTelemetry
deriving DecidableEq

/-- Python dict subscript `tbl[k]` over an association-list table:
returns the mapped value, or raises `KeyError` when the key is absent. -/
def pyDictGet {α : Type} (tbl : List (Nat × α)) (k : Nat) : Except PyExc α :=
  match tbl.lookup k with
  | some v => Except.ok v
  | none => Except.error PyExc.keyError

/-! ## Event model (`events.py`) -/

/-- The payload of one record of a state SSE frame:
`event_data["attr"]` and `event_data["value"]`.  A `StateEvent` object is
an immutable view over this payload, so the class is flattened into the
payload structure. -/
structure StateEvent where
  attr : Nat
  value : PyValue
deriving DecidableEq

/-- `StateEvent.EVENT_TYPE_ID = 1`. -/
def StateEvent.EVENT_TYPE_ID : Nat := 1

/-- `LayoutEvent.EVENT_TYPE_ID = 2`. -/
def LayoutEvent.EVENT_TYPE_ID : Nat := 2

/-- `EffectsEvent.EVENT_TYPE_ID = 3`. -/
def EffectsEvent.EVENT_TYPE_ID : Nat := 3

/-- `TouchEvent.EVENT_TYPE_ID = 4`. -/
def TouchEvent.EVENT_TYPE_ID : Nat := 4

/-- `StateEvent.attribute_id`: the raw numeric attribute id. -/
def StateEvent.attribute_id (e : StateEvent) : Nat := e.attr

/-- The closed lookup table of `StateEvent.attribute`
(`{1: "is_on", 2: "brightness", 3: "hue", 4: "saturation",
5: "color_temperature", 6: "color_mode"}`). -/
def stateAttrTable : List (Nat × String) :=
  [(1, "is_on"), (2, "brightness"), (3, "hue"), (4, "saturation"),
   (5, "color_temperature"), (6, "color_mode")]

/-- `StateEvent.attribute`: dict lookup of the semantic attribute name;
raises `KeyError` for an id outside the table. -/
def StateEvent.attribute (e : StateEvent) : Except PyExc String :=
  pyDictGet stateAttrTable e.attribute_id

/-- The decoded UDP touch-telemetry record (`TouchStreamEvent.__init__`
stores the four constructor arguments unchanged; `panel_id_2_raw` is the
stored `_panel_id_2`). -/
structure TouchStreamEvent where
  panel_id : Nat
  touch_type_id : Nat
  strength : Nat
  panel_id_2_raw : Nat
deriving DecidableEq

/-- `TouchStreamEvent.panel_id_2`: `None` when the stored secondary id
equals `2 ^ 16` — Python's `^` is bitwise XOR, so the sentinel is 18 —
otherwise the stored id itself. -/
def TouchStreamEvent.panel_id_2 (e : TouchStreamEvent) : Option Nat :=
  if e.panel_id_2_raw = 2 ^^^ 16 then none else some e.panel_id_2_raw

/-! ## Device state cache (`Nanoleaf`, `nanoleaf.py`)

The snapshot fields assigned by `get_info` that any claim touches.  The
identification fields (`name`, `serialNo`, `manufacturer`, firmware and
hardware versions, `model`, `panels`, `palette`) are never written by the
event path and are omitted. -/

structure NanoleafState where
  is_on : PyValue
  brightness : PyValue
  brightness_max : PyValue
  brightness_min : PyValue
  hue : PyValue
  hue_max : PyValue
  hue_min : PyValue
  saturation : PyValue
  saturation_max : PyValue
  saturation_min : PyValue
  color_temperature : PyValue
  color_temperature_max : PyValue
  color_temperature_min : PyValue
  color_mode : PyValue
  effects_list : List PyValue
  effect : PyValue
deriving DecidableEq

/-- `Nanoleaf.selected_effect`: `self.effect if self.effect in
self.effects_list else None`, recomputed from the two cached fields. -/
def selected_effect (s : NanoleafState) : Option PyValue :=
  if s.effect ∈ s.effects_list then some s.effect else none

/-- `setattr(self, "_" ++ name, v)` for the six names that
`StateEvent.attribute` can produce (no other name is reachable from the
event path). -/
def setField (s : NanoleafState) (name : String) (v : PyValue) : NanoleafState :=
  if name = "is_on" then { s with is_on := v }
  else if name = "brightness" then { s with brightness := v }
  else if name = "hue" then { s with hue := v }
  else if name = "saturation" then { s with saturation := v }
  else if name = "color_temperature" then { s with color_temperature := v }
  else if name = "color_mode" then { s with color_mode := v }
  else s

/-- The state-event patch of the streaming loop:
`setattr(self, f"_" ++ event.attribute, event.value)` — the attribute-name
lookup runs first and can raise `KeyError`, in which case no field is
written. -/
def applyStateEvent (s : NanoleafState) (e : StateEvent) :
    Except PyExc NanoleafState :=
  match StateEvent.attribute e with
  | Except.error err => Except.error err
  | Except.ok name => Except.ok (setField s name e.value)

/-! ## Theorems for claims C5, C6, C8 -/

/-- C5: `TouchStreamEvent.panel_id_2` returns `None` exactly when the
decoded secondary panel id equals the sentinel `2 ^ 16` — bitwise XOR,
i.e. decimal 18 — and returns every other decoded secondary id
unchanged. -/
theorem panel_id_2_sentinel (e : TouchStreamEvent) :
    ((2 : Nat) ^^^ 16 = 18)
    ∧ (TouchStreamEvent.panel_id_2 e = none ↔ e.panel_id_2_raw = 18)
    ∧ (∀ v, TouchStreamEvent.panel_id_2 e = some v ↔
        e.panel_id_2_raw = v ∧ v ≠ 18) := by
  have hx : (2 : Nat) ^^^ 16 = 18 := by decide
  refine ⟨hx, ?_, ?_⟩
  · unfold TouchStreamEvent.panel_id_2
    rw [hx]
    split_ifs with h <;> simp [h]
  · intro v
    unfold TouchStreamEvent.panel_id_2
    rw [hx]
    split_ifs with h
    · simp
      intro hv
      omega
    · constructor
      · intro hv
        cases hv
        exact ⟨rfl, h⟩
      · rintro ⟨rfl, _⟩
        rfl

/-- C6: `selected_effect` equals the cached effect name iff that name is a
member of the cached effects list, and is `None` otherwise; it is a
function of the two cached fields only, so replacing the effects list with
one not containing the cached name flips the result to `None` without
touching the cached name. -/
theorem selected_effect_spec (s : NanoleafState) (l : List PyValue) :
    (selected_effect s = some s.effect ↔ s.effect ∈ s.effects_list)
    ∧ (selected_effect s = none ↔ s.effect ∉ s.effects_list)
    ∧ (s.effect ∉ l →
        selected_effect { s with effects_list := l } = none
        ∧ ({ s with effects_list := l } : NanoleafState).effect = s.effect) := by
  refine ⟨?_, ?_, ?_⟩
  · unfold selected_effect
    split_ifs with h <;> simp [h]
  · unfold selected_effect
    split_ifs with h <;> simp [h]
  · intro hl
    constructor
    · unfold selected_effect
      split_ifs with h
      · exact absurd h hl
      · rfl
    · rfl

/-- Any cached effect/effects-list flips `selected_effect` as C6 states:
concrete instance discharging the membership hypothesis. -/
theorem selected_effect_spec_witness :
    let s : NanoleafState :=
      { is_on := PyValue.bool true, brightness := PyValue.int 50,
        brightness_max := PyValue.int 100, brightness_min := PyValue.int 0,
        hue := PyValue.int 10, hue_max := PyValue.int 360,
        hue_min := PyValue.int 0, saturation := PyValue.int 20,
        saturation_max := PyValue.int 100, saturation_min := PyValue.int 0,
        color_temperature := PyValue.int 4000,
        color_temperature_max := PyValue.int 6500,
        color_temperature_min := PyValue.int 1200,
        color_mode := PyValue.str "effect",
        effects_list := [PyValue.str "Flames", PyValue.str "Forest"],
        effect := PyValue.str "Flames" }
    (selected_effect s = some s.effect ↔ s.effect ∈ s.effects_list)
    ∧ (selected_effect s = none ↔ s.effect ∉ s.effects_list)
    ∧ (s.effect ∉ ([PyValue.str "Forest"] : List PyValue) →
        selected_effect { s with effects_list := [PyValue.str "Forest"] } = none
        ∧ ({ s with effects_list := [PyValue.str "Forest"] } : NanoleafState).effect
            = s.effect) :=
  selected_effect_spec _ [PyValue.str "Forest"]

/-- C8: the `attribute` accessor of a `StateEvent` maps ids 1..6 to the
documented names and raises `KeyError` (the spec's `KeyLookupFailure`) for
every id outside 1..6, never returning a default. -/
theorem stateEvent_attribute_total (e : StateEvent) :
    StateEvent.attribute e =
      (if e.attr = 1 then Except.ok "is_on"
       else if e.attr = 2 then Except.ok "brightness"
       else if e.attr = 3 then Except.ok "hue"
       else if e.attr = 4 then Except.ok "saturation"
       else if e.attr = 5 then Except.ok "color_temperature"
       else if e.attr = 6 then Except.ok "color_mode"
       else Except.error PyExc.keyError)
    ∧ (StateEvent.attribute e = Except.error PyExc.keyError ↔
        e.attr ∉ ([1, 2, 3, 4, 5, 6] : List Nat)) := by
  have h : StateEvent.attribute e =
      (if e.attr = 1 then Except.ok "is_on"
       else if e.attr = 2 then Except.ok "brightness"
       else if e.attr = 3 then Except.ok "hue"
       else if e.attr = 4 then Except.ok "saturation"
       else if e.attr = 5 then Except.ok "color_temperature"
       else if e.attr = 6 then Except.ok "color_mode"
       else Except.error PyExc.keyError) := by
    unfold StateEvent.attribute pyDictGet stateAttrTable StateEvent.attribute_id
    by_cases h1 : e.attr = 1
    · rw [h1]; rfl
    by_cases h2 : e.attr = 2
    · rw [h2]; rfl
    by_cases h3 : e.attr = 3
    · rw [h3]; rfl
    by_cases h4 : e.attr = 4
    · rw [h4]; rfl
    by_cases h5 : e.attr = 5
    · rw [h5]; rfl
    by_cases h6 : e.attr = 6
    · rw [h6]; rfl
    simp only [List.lookup]
    rw [show (e.attr == 1) = false from beq_eq_false_iff_ne.mpr h1,
        show (e.attr == 2) = false from beq_eq_false_iff_ne.mpr h2,
        show (e.attr == 3) = false from beq_eq_false_iff_ne.mpr h3,
        show (e.attr == 4) = false from beq_eq_false_iff_ne.mpr h4,
        show (e.attr == 5) = false from beq_eq_false_iff_ne.mpr h5,
        show (e.attr == 6) = false from beq_eq_false_iff_ne.mpr h6]
    rw [if_neg h1, if_neg h2, if_neg h3, if_neg h4, if_neg h5, if_neg h6]
  refine ⟨h, ?_⟩
  rw [h]
  split_ifs with h1 h2 h3 h4 h5 h6 <;> simp_all

/-! ## `Nanoleaf.set_state` (C10) -/

/-- One topic entry of the `set_state` request body: either
`{"value": v}` or `{"increment": v}`, with an optional `"duration"`. -/
structure TopicBody where
  key : String
  val : PyValue
  duration : Option Int
deriving DecidableEq

/-- The inner `_add_topic_to_data` helper of `set_state`: a `None` value
adds nothing; otherwise the topic maps to `{"increment": value}` when
relative and `{"value": value}` otherwise. -/
def add_topic_to_data (data : List (String × TopicBody)) (topic : String)
    (value : Option PyValue) (relative : Bool) : List (String × TopicBody) :=
  match value with
  | none => data
  | some v =>
      data ++ [(topic, ⟨if relative then "increment" else "value", v, none⟩)]

/-- `data["brightness"]["duration"] = t` on the request body. -/
def setTopicDuration (data : List (String × TopicBody)) (topic : String)
    (t : Int) : List (String × TopicBody) :=
  data.map (fun p => if p.1 = topic then (p.1, { p.2 with duration := some t }) else p)

/-- `Nanoleaf.set_state`: builds the `"put state"` request body from the
optional parameters (`on_` is Python's `on`, a Lean keyword); returns the
body to send, or `none` when `data` stayed empty, in which case no HTTP
request is made at all (`if data:`).  The method never reads or writes the
cached snapshot fields. -/
def set_state (on_ : Option Bool) (brightness : Option Int)
    (brightness_relative : Bool) (brightness_transition : Option Int)
    (color_temperature : Option Int) (color_temperature_relative : Bool)
    (hue : Option Int) (hue_relative : Bool)
    (saturation : Option Int) (saturation_relative : Bool) :
    Option (List (String × TopicBody)) :=
  let data := add_topic_to_data [] "brightness" (brightness.map PyValue.int)
    brightness_relative
  let data := match brightness_transition with
    | some t =>
        if (data.lookup "brightness").isSome then setTopicDuration data "brightness" t
        else data
    | none => data
  let data := add_topic_to_data data "ct" (color_temperature.map PyValue.int)
    color_temperature_relative
  let data := add_topic_to_data data "hue" (hue.map PyValue.int) hue_relative
  let data := add_topic_to_data data "sat" (saturation.map PyValue.int)
    saturation_relative
  let data := add_topic_to_data data "on" (on_.map PyValue.bool) false
  if data.isEmpty then none else some data

/-- C10: `set_state` with every parameter left at its default builds an
empty body and performs no HTTP request (and, since `set_state` never
touches the cache, the cached state is unchanged). -/
theorem set_state_all_defaults_no_request :
    set_state none none false none none false none false none false = none := rfl

/-! ## Theorem for claim C7 (state-event patch path)

Reduction lemmas for `setField` at each of the six reachable names: each
shows that writing through the dynamic attribute name touches exactly the
named field of the cache. -/

theorem setField_is_on (s : NanoleafState) (v : PyValue) :
    setField s "is_on" v = { s with is_on := v } := by
  simp only [setField, String.reduceEq, reduceIte]

theorem setField_brightness (s : NanoleafState) (v : PyValue) :
    setField s "brightness" v = { s with brightness := v } := by
  simp only [setField, String.reduceEq, reduceIte]

theorem setField_hue (s : NanoleafState) (v : PyValue) :
    setField s "hue" v = { s with hue := v } := by
  simp only [setField, String.reduceEq, reduceIte]

theorem setField_saturation (s : NanoleafState) (v : PyValue) :
    setField s "saturation" v = { s with saturation := v } := by
  simp only [setField, String.reduceEq, reduceIte]

theorem setField_color_temperature (s : NanoleafState) (v : PyValue) :
    setField s "color_temperature" v = { s with color_temperature := v } := by
  simp only [setField, String.reduceEq, reduceIte]

theorem setField_color_mode (s : NanoleafState) (v : PyValue) :
    setField s "color_mode" v = { s with color_mode := v } := by
  simp only [setField, String.reduceEq, reduceIte]

/-- C7: applying an inbound `StateEvent` patches exactly the single cached
field named by the event's semantic attribute to the event's value; the
structure-update form `{ s with field := e.value }` states that every
other cached field keeps its previous value. -/
theorem stateEvent_patch (s : NanoleafState) (e : StateEvent) :
    (e.attr = 1 → applyStateEvent s e = Except.ok { s with is_on := e.value })
    ∧ (e.attr = 2 → applyStateEvent s e = Except.ok { s with brightness := e.value })
    ∧ (e.attr = 3 → applyStateEvent s e = Except.ok { s with hue := e.value })
    ∧ (e.attr = 4 → applyStateEvent s e = Except.ok { s with saturation := e.value })
    ∧ (e.attr = 5 → applyStateEvent s e = Except.ok { s with color_temperature := e.value })
    ∧ (e.attr = 6 → applyStateEvent s e = Except.ok { s with color_mode := e.value }) := by
  refine ⟨?_, ?_, ?_, ?_, ?_, ?_⟩
  · intro h
    have hattr : StateEvent.attribute e = Except.ok "is_on" := by
      unfold StateEvent.attribute pyDictGet StateEvent.attribute_id stateAttrTable
      rw [h]; rfl
    unfold applyStateEvent
    rw [hattr]
    exact congrArg Except.ok (setField_is_on s e.value)
  · intro h
    have hattr : StateEvent.attribute e = Except.ok "brightness" := by
      unfold StateEvent.attribute pyDictGet StateEvent.attribute_id stateAttrTable
      rw [h]; rfl
    unfold applyStateEvent
    rw [hattr]
    exact congrArg Except.ok (setField_brightness s e.value)
  · intro h
    have hattr : StateEvent.attribute e = Except.ok "hue" := by
      unfold StateEvent.attribute pyDictGet StateEvent.attribute_id stateAttrTable
      rw [h]; rfl
    unfold applyStateEvent
    rw [hattr]
    exact congrArg Except.ok (setField_hue s e.value)
  · intro h
    have hattr : StateEvent.attribute e = Except.ok "saturation" := by
      unfold StateEvent.attribute pyDictGet StateEvent.attribute_id stateAttrTable
      rw [h]; rfl
    unfold applyStateEvent
    rw [hattr]
    exact congrArg Except.ok (setField_saturation s e.value)
  · intro h
    have hattr : StateEvent.attribute e = Except.ok "color_temperature" := by
      unfold StateEvent.attribute pyDictGet StateEvent.attribute_id stateAttrTable
      rw [h]; rfl
    unfold applyStateEvent
    rw [hattr]
    exact congrArg Except.ok (setField_color_temperature s e.value)
  · intro h
    have hattr : StateEvent.attribute e = Except.ok "color_mode" := by
      unfold StateEvent.attribute pyDictGet StateEvent.attribute_id stateAttrTable
      rw [h]; rfl
    unfold applyStateEvent
    rw [hattr]
    exact congrArg Except.ok (setField_color_mode s e.value)

/-- A concrete device snapshot (brightness 50, max 100, min 0) used by the
witness theorems. -/
def sampleState : NanoleafState :=
  { is_on := PyValue.bool true, brightness := PyValue.int 50,
    brightness_max := PyValue.int 100, brightness_min := PyValue.int 0,
    hue := PyValue.int 10, hue_max := PyValue.int 360,
    hue_min := PyValue.int 0, saturation := PyValue.int 20,
    saturation_max := PyValue.int 100, saturation_min := PyValue.int 0,
    color_temperature := PyValue.int 4000,
    color_temperature_max := PyValue.int 6500,
    color_temperature_min := PyValue.int 1200,
    color_mode := PyValue.str "effect",
    effects_list := [PyValue.str "Flames"],
    effect := PyValue.str "Flames" }

/-- A snapshot with `brightness=50, max=100, min=0` patched by the
StateEvent `attr:2, value:75` yields `brightness == 75` while
`brightness_max` remains `100` and `brightness_min` remains `0`. -/
theorem stateEvent_patch_witness :
    applyStateEvent sampleState ⟨2, PyValue.int 75⟩
        = Except.ok { sampleState with brightness := PyValue.int 75 }
    ∧ ({ sampleState with brightness := PyValue.int 75 } : NanoleafState).brightness
        = PyValue.int 75
    ∧ ({ sampleState with brightness := PyValue.int 75 } : NanoleafState).brightness_max
        = PyValue.int 100
    ∧ ({ sampleState with brightness := PyValue.int 75 } : NanoleafState).brightness_min
        = PyValue.int 0 :=
  ⟨(stateEvent_patch sampleState ⟨2, PyValue.int 75⟩).2.1 rfl, rfl, rfl, rfl⟩

/-! ## Event-stream engine (`Nanoleaf._listen_for_server_sent_events`)

The engine is a `while True` loop of connection attempts; each attempt
opens the SSE request and reads 3-line frames until the response is
observed closed (`return`), a transport error is raised, or the dispatch
code raises.  One attempt is modelled by an `AttemptSpec`; a run of the
engine is modelled by the list of attempts the environment presents.  A
finite attempt list that is fully consumed leaves the loop `running`
(the loop itself never finishes normally from the top).

Every event kind's payload carries an `attr`/`value` pair, so the
`StateEvent` payload shape stands in for all four kinds; layout and touch
events are dispatched to callbacks only and their payload content is never
read by the engine. -/

/-- How one connection attempt's stream ends after its frames:
the response is observed closed (the loop does `return`), or a
transport-level `ClientError` is raised mid-read. -/
inductive StreamEnd
  | closed
  | transportError
deriving DecidableEq

/-- One 3-line SSE frame: the `id:` line's event-type id and the parsed
`data:` payload's list of event records. -/
structure SseFrame where
  eventTypeId : Nat
  events : List StateEvent
deriving DecidableEq

/-- One connection attempt: either the GET itself fails with a
`ClientError` (connection refused, DNS/connect timeout), or it yields a
response with an HTTP `status` — which the engine never inspects — whose
body delivers `frames` and then ends. -/
inductive AttemptSpec
  | connectError
  | stream (status : Nat) (frames : List SseFrame) (ending : StreamEnd)
deriving DecidableEq

/-- Observable outcome of running the engine against a finite attempt
list: still looping (`running`), terminated normally via the
`resp.closed` check (`returned`), or terminated by an uncaught exception
(`raised`); each records the final cache state and the total seconds
spent in `asyncio.sleep` backoff. -/
inductive EngineOutcome
  | running (s : NanoleafState) (sleepSeconds : Nat)
  | returned (s : NanoleafState) (sleepSeconds : Nat)
  | raised (e : PyExc) (s : NanoleafState) (sleepSeconds : Nat)
deriving DecidableEq

/-- Add backoff seconds to an outcome (the sleep happened before the
remaining attempts ran). -/
def addSleep (k : Nat) : EngineOutcome → EngineOutcome
  | EngineOutcome.running s n => EngineOutcome.running s (n + k)
  | EngineOutcome.returned s n => EngineOutcome.returned s (n + k)
  | EngineOutcome.raised e s n => EngineOutcome.raised e s (n + k)

/-- Whether a raised exception is caught by `except ClientError`.

Modelled from the spec: `exceptions.py` is not under `src/`.  The spec's
section 7 presents `NanoleafException` and its taxonomy as the package's
own exception hierarchy; `ClientError` is imported from the external HTTP
client library (`aiohttp`), whose hierarchy covers connection errors,
disconnects and payload errors but none of the package exceptions, and
Python's built-in `KeyError`/`ValueError` are not `ClientError`s either.
Transport-level `ClientError`s are represented structurally by
`AttemptSpec.connectError` / `StreamEnd.transportError`, so no `PyExc`
constructor is a `ClientError`. -/
def pyExcIsClientError : PyExc → Bool
  | PyExc.keyError => false
  | PyExc.valueError => false
  | PyExc.nanoleafException => false
  | PyExc.invalidToken => false
  | PyExc.unavailable => false
  | PyExc.clientResponseError => false
  | PyExc.malformedTelemetry => false

/-- The `for event_data in data["events"]` dispatch of one frame: state
events patch the cache (and can raise `KeyError` from the attribute
lookup), layout and touch events only schedule callbacks, effects events
patch the cached effect, and any other event-type id raises
`NanoleafException` (the `else` arm) at the first record. -/
def runEvents (s : NanoleafState) (id : Nat) (evs : List StateEvent) :
    NanoleafState × Option PyExc :=
  match evs with
  | [] => (s, none)
  | ev :: rest =>
    if id = StateEvent.EVENT_TYPE_ID then
      match applyStateEvent s ev with
      | Except.ok next => runEvents next id rest
      | Except.error e => (s, some e)
    else if id = LayoutEvent.EVENT_TYPE_ID then runEvents s id rest
    else if id = EffectsEvent.EVENT_TYPE_ID then
      runEvents { s with effect := ev.value } id rest
    else if id = TouchEvent.EVENT_TYPE_ID then runEvents s id rest
    else (s, some PyExc.nanoleafException)

/-- Process the frames of one attempt in order until one raises. -/
def runFrames (s : NanoleafState) (frames : List SseFrame) :
    NanoleafState × Option PyExc :=
  match frames with
  | [] => (s, none)
  | f :: rest =>
    match runEvents s f.eventTypeId f.events with
    | (next, none) => runFrames next rest
    | (next, some e) => (next, some e)

/-- The engine loop (`while True` over connection attempts): a
`ClientError` — at connect or mid-read — is caught, the engine sleeps 5
seconds and retries from scratch; an observed-closed response makes the
loop `return`; any non-`ClientError` exception raised by the dispatch
code propagates out of the loop. -/
def runEngine (s : NanoleafState) (attempts : List AttemptSpec) : EngineOutcome :=
  match attempts with
  | [] => EngineOutcome.running s 0
  | AttemptSpec.connectError :: rest => addSleep 5 (runEngine s rest)
  | AttemptSpec.stream _status frames ending :: rest =>
    match runFrames s frames with
    | (next, some e) =>
        if pyExcIsClientError e then addSleep 5 (runEngine next rest)
        else EngineOutcome.raised e next 0
    | (next, none) =>
        match ending with
        | StreamEnd.closed => EngineOutcome.returned next 0
        | StreamEnd.transportError => addSleep 5 (runEngine next rest)

/-- An attempt that fails purely at transport level: the connect raises a
`ClientError`, or the stream delivers nothing and is reset mid-read. -/
def isTransportOnlyAttempt : AttemptSpec → Bool
  | AttemptSpec.connectError => true
  | AttemptSpec.stream _ frames ending =>
    match ending with
    | StreamEnd.transportError => frames.isEmpty
    | StreamEnd.closed => false

/-- C1 (amended): the engine never terminates on a transport-level error —
for every finite sequence of transport-failing attempts it is still
looping, having slept the fixed 5 seconds once per failed attempt and
reconnected from scratch each time with the cache untouched. -/
theorem engine_transport_backoff (s : NanoleafState) (attempts : List AttemptSpec)
    (h : ∀ a ∈ attempts, isTransportOnlyAttempt a = true) :
    runEngine s attempts = EngineOutcome.running s (5 * attempts.length) := by
  induction attempts with
  | nil => rfl
  | cons a rest ih =>
    have ha : isTransportOnlyAttempt a = true := h a (List.mem_cons_self a rest)
    have hrest := ih (fun x hx => h x (List.mem_cons_of_mem a hx))
    cases a with
    | connectError =>
      show addSleep 5 (runEngine s rest) = _
      rw [hrest]
      show EngineOutcome.running s (5 * rest.length + 5) = _
      rw [List.length_cons]
      ring_nf
    | stream st frames ending =>
      cases ending with
      | closed => exact absurd ha (by simp [isTransportOnlyAttempt])
      | transportError =>
        have hframes : frames = [] := by
          simpa [isTransportOnlyAttempt, List.isEmpty_iff] using ha
        subst hframes
        show (match runFrames s [] with
          | (next, some e) =>
              if pyExcIsClientError e then addSleep 5 (runEngine next rest)
              else EngineOutcome.raised e next 0
          | (next, none) =>
              match (StreamEnd.transportError : StreamEnd) with
              | StreamEnd.closed => EngineOutcome.returned next 0
              | StreamEnd.transportError => addSleep 5 (runEngine next rest)) = _
        show addSleep 5 (runEngine s rest) = _
        rw [hrest]
        show EngineOutcome.running s (5 * rest.length + 5) = _
        rw [List.length_cons]
        ring_nf

/-- C1 witness: two consecutive transport failures (a refused connect,
then a mid-stream reset) leave the engine running with 10 seconds of
backoff slept. -/
theorem engine_transport_backoff_witness :
    runEngine sampleState
        [AttemptSpec.connectError,
         AttemptSpec.stream 200 [] StreamEnd.transportError]
      = EngineOutcome.running sampleState 10 :=
  engine_transport_backoff sampleState
    [AttemptSpec.connectError, AttemptSpec.stream 200 [] StreamEnd.transportError]
    (by decide)

/-- C1 counterexample: the claim's "terminating only on caller
cancellation or on an HTTP 401 propagated as `InvalidToken`" is false —
an attempt whose response is observed closed makes the engine terminate
normally (the `return` at the `resp.closed` check), with no cancellation,
no exception and no `InvalidToken`. -/
theorem engine_terminates_on_closed_counterexample :
    runEngine sampleState [AttemptSpec.stream 200 [] StreamEnd.closed]
      = EngineOutcome.returned sampleState 0 := rfl

/-- C2 (amended): an inbound frame whose event-type id is outside the four
known kinds makes the dispatch raise `NanoleafException` at its first
record; the exception is not a `ClientError`, so it is not caught by the
backoff handler: the engine stops fatally, propagating the error to the
caller with no backoff sleep. -/
theorem engine_unknown_event_raises (s : NanoleafState) (st id : Nat)
    (ev : StateEvent) (evs : List StateEvent) (more : List SseFrame)
    (ending : StreamEnd) (rest : List AttemptSpec)
    (h1 : id ≠ 1) (h2 : id ≠ 2) (h3 : id ≠ 3) (h4 : id ≠ 4) :
    runEngine s (AttemptSpec.stream st (⟨id, ev :: evs⟩ :: more) ending :: rest)
      = EngineOutcome.raised PyExc.nanoleafException s 0 := by
  have hevents : runEvents s id (ev :: evs) = (s, some PyExc.nanoleafException) := by
    unfold runEvents StateEvent.EVENT_TYPE_ID LayoutEvent.EVENT_TYPE_ID
      EffectsEvent.EVENT_TYPE_ID TouchEvent.EVENT_TYPE_ID
    rw [if_neg h1, if_neg h2, if_neg h3, if_neg h4]
  have hframes : runFrames s (⟨id, ev :: evs⟩ :: more)
      = (s, some PyExc.nanoleafException) := by
    unfold runFrames
    rw [hevents]
  unfold runEngine
  rw [hframes]
  rfl

/-- C2 witness for the amended claim: a stream frame with event-type id 9
and one record terminates the engine with a propagated
`NanoleafException` and zero backoff. -/
theorem engine_unknown_event_raises_witness :
    runEngine sampleState
        [AttemptSpec.stream 200 [⟨9, [⟨2, PyValue.int 75⟩]⟩] StreamEnd.closed]
      = EngineOutcome.raised PyExc.nanoleafException sampleState 0 :=
  engine_unknown_event_raises sampleState 200 9 ⟨2, PyValue.int 75⟩ [] []
    StreamEnd.closed [] (by decide) (by decide) (by decide) (by decide)

/-- C2 counterexample: at the concrete unknown event-type id 7 the engine
does not enter the backoff-and-reconnect path — it raises, terminating
with zero seconds of backoff, which contradicts the claim that the
condition is treated as a recoverable transport error. -/
theorem engine_unknown_event_counterexample :
    runEngine sampleState
        [AttemptSpec.stream 200 [⟨7, [⟨2, PyValue.int 75⟩]⟩] StreamEnd.closed,
         AttemptSpec.stream 200 [] StreamEnd.closed]
      = EngineOutcome.raised PyExc.nanoleafException sampleState 0
    ∧ EngineOutcome.raised PyExc.nanoleafException sampleState 0
      ≠ EngineOutcome.running sampleState 5 := by
  constructor
  · rfl
  · decide

/-! ## `Nanoleaf._request` (C9)

`_request` makes at most two HTTP calls: the first, and — only when the
first raises `ServerDisconnectedError` — one transparent retry.  Both
calls' outcomes are supplied by the environment as `o1`/`o2`. -/

/-- What one `session.request` call does: raise
`ServerDisconnectedError`, raise another `ClientConnectionError`, raise
`asyncio.TimeoutError`, or return a response with an HTTP status. -/
inductive SessionOutcome
  | serverDisconnected
  | connectionError
  | timeoutError
  | response (status : Nat)
deriving DecidableEq

/-- The status handling after a response is obtained:
`if resp.status == 401: raise InvalidToken` and then
`resp.raise_for_status()` (an error for any status of at least 400). -/
def requestCheck (status : Nat) : Except PyExc Nat :=
  if status = 401 then Except.error PyExc.invalidToken
  else if 400 ≤ status then Except.error PyExc.clientResponseError
  else Except.ok status

/-- `Nanoleaf._request`: result paired with the number of HTTP calls
made.  `ServerDisconnectedError` on the first call triggers exactly one
transparent retry; a second `ClientConnectionError`-family failure (or a
timeout) becomes `Unavailable`.  A response's status is only examined
after the call chain, so a 401 response is never retried. -/
def nanoleafRequest (o1 o2 : SessionOutcome) : Except PyExc Nat × Nat :=
  match o1 with
  | SessionOutcome.response st => (requestCheck st, 1)
  | SessionOutcome.serverDisconnected =>
    match o2 with
    | SessionOutcome.response st => (requestCheck st, 2)
    | SessionOutcome.serverDisconnected => (Except.error PyExc.unavailable, 2)
    | SessionOutcome.connectionError => (Except.error PyExc.unavailable, 2)
    | SessionOutcome.timeoutError => (Except.error PyExc.unavailable, 2)
  | SessionOutcome.connectionError => (Except.error PyExc.unavailable, 1)
  | SessionOutcome.timeoutError => (Except.error PyExc.unavailable, 1)


/-- The attribute lookup of a `StateEvent` can only fail with `KeyError`. -/
theorem stateAttribute_error_keyError (ev : StateEvent) (err : PyExc)
    (h : StateEvent.attribute ev = Except.error err) : err = PyExc.keyError := by
  unfold StateEvent.attribute pyDictGet at h
  rcases hl : List.lookup ev.attribute_id stateAttrTable with _ | v <;>
    rw [hl] at h <;> simp_all

/-- Applying a `StateEvent` can only fail with `KeyError`. -/
theorem applyStateEvent_error_keyError (s : NanoleafState) (ev : StateEvent)
    (err : PyExc) (h : applyStateEvent s ev = Except.error err) :
    err = PyExc.keyError := by
  unfold applyStateEvent at h
  rcases hattr : StateEvent.attribute ev with aerr | nm <;> rw [hattr] at h
  · simp only [Except.error.injEq] at h
    subst h
    exact stateAttribute_error_keyError ev aerr hattr
  · simp at h

/-- The per-frame dispatch can only raise `KeyError` (bad state-event
attribute) or `NanoleafException` (unknown event-type id). -/
theorem runEvents_error (evs : List StateEvent) :
    ∀ (s : NanoleafState) (id : Nat) (s' : NanoleafState) (e : PyExc),
      runEvents s id evs = (s', some e) →
      e = PyExc.keyError ∨ e = PyExc.nanoleafException := by
  induction evs with
  | nil =>
    intro s id s' e h
    simp [runEvents] at h
  | cons ev rest ih =>
    intro s id s' e h
    unfold runEvents at h
    split_ifs at h with hid1 hid2 hid3 hid4
    · rcases happ : applyStateEvent s ev with aerr | nxt <;> rw [happ] at h
      · injection h with h1 h2
        injection h2 with h3
        subst h3
        exact Or.inl (applyStateEvent_error_keyError s ev aerr happ)
      · exact ih nxt id s' e h
    · exact ih s id s' e h
    · exact ih { s with effect := ev.value } id s' e h
    · exact ih s id s' e h
    · injection h with h1 h2
      injection h2 with h3
      exact Or.inr h3.symm

/-- Frame processing can only raise `KeyError` or `NanoleafException`. -/
theorem runFrames_error (frames : List SseFrame) :
    ∀ (s s' : NanoleafState) (e : PyExc),
      runFrames s frames = (s', some e) →
      e = PyExc.keyError ∨ e = PyExc.nanoleafException := by
  induction frames with
  | nil =>
    intro s s' e h
    simp [runFrames] at h
  | cons f rest ih =>
    intro s s' e h
    unfold runFrames at h
    split at h
    · rename_i nxt heq
      exact ih nxt s' e h
    · rename_i nxt e0 heq
      injection h with h1 h2
      injection h2 with h3
      subst h3
      exact runEvents_error f.events s f.eventTypeId nxt e0 heq

/-- `addSleep` preserves the `raised` constructor and its exception. -/
theorem addSleep_raised (k : Nat) (o : EngineOutcome) (e : PyExc)
    (s : NanoleafState) (n : Nat) (h : addSleep k o = EngineOutcome.raised e s n) :
    ∃ m, o = EngineOutcome.raised e s m := by
  cases o with
  | running s0 n0 => simp [addSleep] at h
  | returned s0 n0 => simp [addSleep] at h
  | raised e0 s0 n0 =>
    refine ⟨n0, ?_⟩
    simp only [addSleep, EngineOutcome.raised.injEq] at h
    obtain ⟨rfl, rfl, -⟩ := h
    rfl

/-- An exception propagated out of the engine loop is a `KeyError` or a
`NanoleafException`; in particular the engine never raises
`InvalidToken`. -/
theorem runEngine_raised (attempts : List AttemptSpec) :
    ∀ (s : NanoleafState) (e : PyExc) (s' : NanoleafState) (n : Nat),
      runEngine s attempts = EngineOutcome.raised e s' n →
      e = PyExc.keyError ∨ e = PyExc.nanoleafException := by
  induction attempts with
  | nil =>
    intro s e s' n h
    simp [runEngine] at h
  | cons a rest ih =>
    intro s e s' n h
    cases a with
    | connectError =>
      unfold runEngine at h
      obtain ⟨m, hm⟩ := addSleep_raised 5 (runEngine s rest) e s' n h
      exact ih s e s' m hm
    | stream st frames ending =>
      unfold runEngine at h
      split at h
      · rename_i nxt e0 heq
        by_cases hcl : pyExcIsClientError e0 = true
        · rw [if_pos hcl] at h
          obtain ⟨m, hm⟩ := addSleep_raised 5 (runEngine nxt rest) e s' n h
          exact ih nxt e s' m hm
        · rw [if_neg hcl] at h
          injection h with h1 h2 h3
          subst h1
          exact runFrames_error frames s nxt e0 heq
      · rename_i nxt heq
        cases ending with
        | closed => simp at h
        | transportError =>
          obtain ⟨m, hm⟩ := addSleep_raised 5 (runEngine nxt rest) e s' n h
          exact ih nxt e s' m hm

/-- C9 (amended): a 401 response makes `_request` fail immediately with
`InvalidToken` after exactly the calls already made — one normally, two
when the first call was transparently retried after a disconnect — never
re-attempting after the 401 itself; the SSE event-stream engine, however,
never raises `InvalidToken` at all (it never inspects the response
status). -/
theorem invalidToken_on_401 (o2 : SessionOutcome) :
    nanoleafRequest (SessionOutcome.response 401) o2
        = (Except.error PyExc.invalidToken, 1)
    ∧ nanoleafRequest SessionOutcome.serverDisconnected (SessionOutcome.response 401)
        = (Except.error PyExc.invalidToken, 2)
    ∧ (∀ s attempts e s' n,
        runEngine s attempts = EngineOutcome.raised e s' n →
        e ≠ PyExc.invalidToken) := by
  refine ⟨rfl, rfl, ?_⟩
  intro s attempts e s' n h
  rcases runEngine_raised attempts s e s' n h with rfl | rfl <;> decide

/-- C9 witness: concrete 401s on the first and on the retried call fail
with `InvalidToken` after 1 and 2 calls respectively, and a concrete
engine run that raises raises `NanoleafException`, not `InvalidToken`. -/
theorem invalidToken_on_401_witness :
    nanoleafRequest (SessionOutcome.response 401) (SessionOutcome.response 200)
        = (Except.error PyExc.invalidToken, 1)
    ∧ nanoleafRequest SessionOutcome.serverDisconnected (SessionOutcome.response 401)
        = (Except.error PyExc.invalidToken, 2)
    ∧ PyExc.nanoleafException ≠ PyExc.invalidToken :=
  ⟨(invalidToken_on_401 (SessionOutcome.response 200)).1,
   (invalidToken_on_401 (SessionOutcome.response 200)).2.1,
   (invalidToken_on_401 (SessionOutcome.response 200)).2.2 sampleState
     [AttemptSpec.stream 401 [⟨9, [⟨2, PyValue.int 75⟩]⟩] StreamEnd.closed]
     PyExc.nanoleafException sampleState 0 (by decide)⟩

/-- C9 counterexample: for the SSE event-stream subscription a 401
response does not fail with `InvalidToken`: the engine never inspects the
status, and with a 401 response whose body is empty and closed it
terminates normally, raising nothing. -/
theorem sse_401_no_invalidToken_counterexample :
    runEngine sampleState [AttemptSpec.stream 401 [] StreamEnd.closed]
      = EngineOutcome.returned sampleState 0 := rfl

/-! ## UDP touch-telemetry decoder (`_NanoleafTouchProtocol.datagram_received`)

The Python code does
`binary = bin(int.from_bytes(data, byteorder="big"))[3:]` — `bin` renders
the integer without leading zeros and with a `0b` prefix, and the slice
drops the prefix plus one more character — and then parses fixed slices of
the remaining digit string with `int(_, 2)`, which raises `ValueError` on
an empty string. -/

/-- `int.from_bytes(data, byteorder="big")`. -/
def pyIntFromBytes (data : List Nat) : Nat :=
  data.foldl (fun acc b => acc * 256 + b) 0

/-- The digits of `bin(n)` after the `0b` prefix, built with an explicit
structural fuel so that it evaluates by kernel reduction; any fuel of at
least `n` gives the digits of `n` (most significant first, empty for 0). -/
def binDigitsGo : Nat → Nat → List Bool
  | 0, _ => []
  | fuel + 1, n =>
    if n = 0 then [] else binDigitsGo fuel (n / 2) ++ [decide (n % 2 = 1)]

/-- `bin(n)` without the `0b` prefix: `"0"` for zero, otherwise the binary
digits of `n` with no leading zeros (`true` = the character `1`). -/
def pyBin (n : Nat) : List Bool :=
  if n = 0 then [false] else binDigitsGo n n

/-- The numeric value of a big-endian digit string. -/
def bitsToNat (s : List Bool) : Nat :=
  s.foldl (fun acc b => 2 * acc + b.toNat) 0

/-- `int(s, 2)`: `ValueError` on the empty string, otherwise the value. -/
def pyIntBase2 (s : List Bool) : Except PyExc Nat :=
  if s.isEmpty then Except.error PyExc.valueError else Except.ok (bitsToNat s)

/-- `_NanoleafTouchProtocol.datagram_received` (after the sender-address
check): slice the digit string as `binary[:16]`, `binary[16:20]`,
`binary[20:24]`, `binary[24:]` and parse each slice in that order — the
first empty slice raises `ValueError`. -/
def datagram_received (data : List Nat) : Except PyExc TouchStreamEvent :=
  let binary := (pyBin (pyIntFromBytes data)).drop 1
  match pyIntBase2 (binary.take 16), pyIntBase2 ((binary.drop 16).take 4),
        pyIntBase2 ((binary.drop 20).take 4), pyIntBase2 (binary.drop 24) with
  | Except.ok pid, Except.ok tt, Except.ok st, Except.ok p2 =>
      Except.ok ⟨pid, tt, st, p2⟩
  | Except.error e, _, _, _ => Except.error e
  | _, Except.error e, _, _ => Except.error e
  | _, _, Except.error e, _ => Except.error e
  | _, _, _, Except.error e => Except.error e

/-! The intended fixed layout of the telemetry datagram (spec section 6):
the datagram as a big-endian bit string — 1 reserved bit, 16-bit panel id,
4-bit touch type, 4-bit strength, remaining bits the secondary id. -/

/-- The 8 bits of one byte, most significant first. -/
def byteBits (b : Nat) : List Bool :=
  [decide (b / 128 % 2 = 1), decide (b / 64 % 2 = 1), decide (b / 32 % 2 = 1),
   decide (b / 16 % 2 = 1), decide (b / 8 % 2 = 1), decide (b / 4 % 2 = 1),
   decide (b / 2 % 2 = 1), decide (b % 2 = 1)]

/-- The datagram as a big-endian bit string. -/
def dataBits (data : List Nat) : List Bool :=
  (data.map byteBits).flatten

/-- Re-encode a value as a fixed-width big-endian bit string (width `w`,
low `w` bits of `k`). -/
def natToBits : Nat → Nat → List Bool
  | 0, _ => []
  | w + 1, k => decide (k / 2 ^ w % 2 = 1) :: natToBits w k

/-! Supporting lemmas for the decoder. -/

theorem binDigitsGo_zero (f : Nat) : binDigitsGo f 0 = [] := by
  cases f <;> rfl

theorem binDigitsGo_fuel (n : Nat) :
    ∀ f g, n ≤ f → n ≤ g → binDigitsGo f n = binDigitsGo g n := by
  induction n using Nat.strong_induction_on with
  | _ n ih =>
    intro f g hf hg
    rcases Nat.eq_zero_or_pos n with rfl | hn
    · rw [binDigitsGo_zero, binDigitsGo_zero]
    · obtain ⟨f', rfl⟩ : ∃ f', f = f' + 1 := ⟨f - 1, by omega⟩
      obtain ⟨g', rfl⟩ : ∃ g', g = g' + 1 := ⟨g - 1, by omega⟩
      show (if n = 0 then [] else binDigitsGo f' (n / 2) ++ [decide (n % 2 = 1)])
        = (if n = 0 then [] else binDigitsGo g' (n / 2) ++ [decide (n % 2 = 1)])
      rw [if_neg (by omega), if_neg (by omega),
        ih (n / 2) (by omega) f' g' (by omega) (by omega)]

theorem pyBin_peel (m r : Nat) (hm : 0 < m) (hr : r < 2) :
    pyBin (2 * m + r) = pyBin m ++ [decide (r = 1)] := by
  unfold pyBin
  rw [if_neg (by omega), if_neg (by omega)]
  obtain ⟨k, hk⟩ : ∃ k, 2 * m + r = k + 1 := ⟨2 * m + r - 1, by omega⟩
  rw [hk]
  show (if k + 1 = 0 then []
    else binDigitsGo k ((k + 1) / 2) ++ [decide ((k + 1) % 2 = 1)]) = _
  rw [if_neg (by omega), show (k + 1) / 2 = m from by omega,
    show (k + 1) % 2 = r from by omega,
    binDigitsGo_fuel m k m (by omega) le_rfl]

theorem pyBin_one : pyBin 1 = [true] := rfl

theorem pyBin_byte (m b : Nat) (hm : 0 < m) (hb : b < 256) :
    pyBin (256 * m + b) = pyBin m ++ byteBits b := by
  rw [show 256 * m + b = 2 * (128 * m + b / 2) + b % 2 from by omega,
    pyBin_peel _ _ (by omega) (by omega)]
  rw [show 128 * m + b / 2 = 2 * (64 * m + b / 4) + b / 2 % 2 from by omega,
    pyBin_peel _ _ (by omega) (by omega)]
  rw [show 64 * m + b / 4 = 2 * (32 * m + b / 8) + b / 4 % 2 from by omega,
    pyBin_peel _ _ (by omega) (by omega)]
  rw [show 32 * m + b / 8 = 2 * (16 * m + b / 16) + b / 8 % 2 from by omega,
    pyBin_peel _ _ (by omega) (by omega)]
  rw [show 16 * m + b / 16 = 2 * (8 * m + b / 32) + b / 16 % 2 from by omega,
    pyBin_peel _ _ (by omega) (by omega)]
  rw [show 8 * m + b / 32 = 2 * (4 * m + b / 64) + b / 32 % 2 from by omega,
    pyBin_peel _ _ (by omega) (by omega)]
  rw [show 4 * m + b / 64 = 2 * (2 * m + b / 128) + b / 64 % 2 from by omega,
    pyBin_peel _ _ (by omega) (by omega)]
  rw [pyBin_peel m (b / 128) hm (by omega)]
  rw [show decide (b / 128 = 1) = decide (b / 128 % 2 = 1) from by
    rw [show b / 128 % 2 = b / 128 from by omega]]
  simp [byteBits, List.append_assoc]

theorem pyBin_peel2 (n : Nat) (hn : 2 ≤ n) :
    pyBin n = pyBin (n / 2) ++ [decide (n % 2 = 1)] := by
  have h := pyBin_peel (n / 2) (n % 2) (by omega) (by omega)
  rw [show 2 * (n / 2) + n % 2 = n from by omega] at h
  exact h

theorem pyBin_singleByte (d : Nat) (hd : 128 ≤ d) (hd' : d < 256) :
    pyBin d = byteBits d := by
  rw [pyBin_peel2 d (by omega)]
  rw [pyBin_peel2 (d / 2) (by omega), show d / 2 / 2 = d / 4 from by omega]
  rw [pyBin_peel2 (d / 4) (by omega), show d / 4 / 2 = d / 8 from by omega]
  rw [pyBin_peel2 (d / 8) (by omega), show d / 8 / 2 = d / 16 from by omega]
  rw [pyBin_peel2 (d / 16) (by omega), show d / 16 / 2 = d / 32 from by omega]
  rw [pyBin_peel2 (d / 32) (by omega), show d / 32 / 2 = d / 64 from by omega]
  rw [pyBin_peel2 (d / 64) (by omega), show d / 64 / 2 = d / 128 from by omega]
  rw [show d / 128 = 1 from by omega, pyBin_one]
  simp only [byteBits, List.append_assoc, List.singleton_append,
    List.cons_append, List.nil_append]
  rw [show d / 128 % 2 = 1 from by omega]
  simp

theorem pyIntFromBytes_snoc (l : List Nat) (b : Nat) :
    pyIntFromBytes (l ++ [b]) = pyIntFromBytes l * 256 + b := by
  unfold pyIntFromBytes
  rw [List.foldl_append]
  rfl

theorem foldl_mulAdd_init_le (l : List Nat) :
    ∀ a : Nat, a ≤ List.foldl (fun acc b => acc * 256 + b) a l := by
  induction l with
  | nil => intro a; exact le_rfl
  | cons x t ih =>
    intro a
    calc a ≤ a * 256 + x := by omega
    _ ≤ List.foldl (fun acc b => acc * 256 + b) (a * 256 + x) t := ih (a * 256 + x)

theorem pyIntFromBytes_pos (d0 : Nat) (l : List Nat) (h : 0 < d0) :
    0 < pyIntFromBytes (d0 :: l) := by
  unfold pyIntFromBytes
  calc 0 < d0 := h
  _ = 0 * 256 + d0 := by omega
  _ ≤ _ := foldl_mulAdd_init_le l (0 * 256 + d0)

theorem foldl_mulAdd_lt (l : List Nat) :
    ∀ a : Nat, (∀ x ∈ l, x < 256) →
      List.foldl (fun acc b => acc * 256 + b) a l < (a + 1) * 256 ^ l.length := by
  induction l with
  | nil => intro a _; simp
  | cons x t ih =>
    intro a hx
    have hx0 : x < 256 := hx x (List.mem_cons_self x t)
    have ht : ∀ y ∈ t, y < 256 := fun y hy => hx y (List.mem_cons_of_mem x hy)
    calc List.foldl (fun acc b => acc * 256 + b) (a * 256 + x) t
        < (a * 256 + x + 1) * 256 ^ t.length := ih (a * 256 + x) ht
    _ ≤ ((a + 1) * 256) * 256 ^ t.length := by
        have : a * 256 + x + 1 ≤ (a + 1) * 256 := by omega
        exact Nat.mul_le_mul_right _ this
    _ = (a + 1) * 256 ^ (t.length + 1) := by ring
    _ = (a + 1) * 256 ^ (x :: t).length := by rw [List.length_cons]

theorem pyIntFromBytes_lt (data : List Nat) (h : ∀ x ∈ data, x < 256) :
    pyIntFromBytes data < 256 ^ data.length := by
  have := foldl_mulAdd_lt data 0 h
  simpa [pyIntFromBytes] using this

theorem dataBits_cons (b : Nat) (l : List Nat) :
    dataBits (b :: l) = byteBits b ++ dataBits l := by
  simp [dataBits]

theorem dataBits_snoc (l : List Nat) (b : Nat) :
    dataBits (l ++ [b]) = dataBits l ++ byteBits b := by
  simp [dataBits]

theorem dataBits_length (data : List Nat) :
    (dataBits data).length = 8 * data.length := by
  induction data with
  | nil => rfl
  | cons b l ih =>
    rw [dataBits_cons, List.length_append, ih, List.length_cons]
    simp [byteBits]
    ring

theorem pyBin_eq_dataBits (d0 : Nat) (rest : List Nat) (h0 : 128 ≤ d0) :
    (∀ x ∈ d0 :: rest, x < 256) →
      pyBin (pyIntFromBytes (d0 :: rest)) = dataBits (d0 :: rest) := by
  induction rest using List.reverseRecOn with
  | nil =>
    intro hb
    have hd' : d0 < 256 := hb d0 (List.mem_cons_self d0 [])
    have : pyIntFromBytes [d0] = d0 := by simp [pyIntFromBytes]
    rw [this, pyBin_singleByte d0 h0 hd', dataBits_cons]
    simp [dataBits]
  | append_singleton l b ih =>
    intro hb
    have hb' : ∀ x ∈ d0 :: l, x < 256 := by
      intro x hx
      apply hb
      rcases List.mem_cons.mp hx with rfl | hx'
      · exact List.mem_cons_self x (l ++ [b])
      · exact List.mem_cons_of_mem d0 (List.mem_append_left [b] hx')
    have hbval : b < 256 := hb b (List.mem_cons_of_mem d0 (List.mem_append_right l (List.mem_singleton.mpr rfl)))
    have hcons : d0 :: (l ++ [b]) = (d0 :: l) ++ [b] := rfl
    rw [hcons, pyIntFromBytes_snoc, dataBits_snoc,
      show pyIntFromBytes (d0 :: l) * 256 + b = 256 * pyIntFromBytes (d0 :: l) + b
        from by ring,
      pyBin_byte _ b (pyIntFromBytes_pos d0 l (by omega)) hbval, ih hb']

theorem bitsToNat_foldl (l : List Bool) :
    ∀ a : Nat, List.foldl (fun acc b => 2 * acc + b.toNat) a l
      = a * 2 ^ l.length + bitsToNat l := by
  induction l with
  | nil => intro a; simp [bitsToNat]
  | cons x t ih =>
    intro a
    show List.foldl (fun acc b => 2 * acc + b.toNat) (2 * a + x.toNat) t = _
    rw [ih (2 * a + x.toNat)]
    have hx : bitsToNat (x :: t) = x.toNat * 2 ^ t.length + bitsToNat t := by
      show List.foldl (fun acc b => 2 * acc + b.toNat) (2 * 0 + x.toNat) t = _
      rw [ih (2 * 0 + x.toNat)]
      ring_nf
    rw [hx, List.length_cons]
    ring

theorem bitsToNat_cons (x : Bool) (t : List Bool) :
    bitsToNat (x :: t) = x.toNat * 2 ^ t.length + bitsToNat t := by
  show List.foldl (fun acc b => 2 * acc + b.toNat) (2 * 0 + x.toNat) t = _
  rw [bitsToNat_foldl t (2 * 0 + x.toNat)]
  ring_nf

theorem bitsToNat_lt (l : List Bool) : bitsToNat l < 2 ^ l.length := by
  induction l with
  | nil => simp [bitsToNat]
  | cons x t ih =>
    rw [bitsToNat_cons, List.length_cons, pow_succ]
    have hx : x.toNat ≤ 1 := by cases x <;> simp
    have : x.toNat * 2 ^ t.length ≤ 2 ^ t.length := by
      calc x.toNat * 2 ^ t.length ≤ 1 * 2 ^ t.length :=
        Nat.mul_le_mul_right _ hx
      _ = 2 ^ t.length := one_mul _
    omega

theorem natToBits_add_mul (w : Nat) :
    ∀ k c : Nat, natToBits w (k + c * 2 ^ w) = natToBits w k := by
  induction w with
  | zero => intro k c; rfl
  | succ w ih =>
    intro k c
    show (decide ((k + c * 2 ^ (w + 1)) / 2 ^ w % 2 = 1))
        :: natToBits w (k + c * 2 ^ (w + 1))
      = (decide (k / 2 ^ w % 2 = 1)) :: natToBits w k
    have hsplit : c * 2 ^ (w + 1) = 2 * c * 2 ^ w := by ring
    have hdiv : (k + c * 2 ^ (w + 1)) / 2 ^ w = k / 2 ^ w + 2 * c := by
      rw [hsplit]
      exact Nat.add_mul_div_right k (2 * c) (Nat.pos_pow_of_pos w (by omega))
    have hmod : (k / 2 ^ w + 2 * c) % 2 = k / 2 ^ w % 2 := by omega
    rw [hdiv, hmod, hsplit, ih k (2 * c)]

theorem natToBits_bitsToNat (l : List Bool) :
    natToBits l.length (bitsToNat l) = l := by
  induction l with
  | nil => rfl
  | cons x t ih =>
    show (decide (bitsToNat (x :: t) / 2 ^ t.length % 2 = 1))
        :: natToBits t.length (bitsToNat (x :: t)) = x :: t
    have hB : bitsToNat (x :: t) = bitsToNat t + x.toNat * 2 ^ t.length := by
      rw [bitsToNat_cons]; ring
    have hdiv : bitsToNat (x :: t) / 2 ^ t.length = x.toNat := by
      rw [hB, Nat.add_mul_div_right _ _ (Nat.pos_pow_of_pos t.length (by omega)),
        Nat.div_eq_of_lt (bitsToNat_lt t)]
      omega
    have hhead : decide (bitsToNat (x :: t) / 2 ^ t.length % 2 = 1) = x := by
      rw [hdiv]
      cases x <;> rfl
    have htail : natToBits t.length (bitsToNat (x :: t)) = t := by
      rw [hB, natToBits_add_mul t.length (bitsToNat t) x.toNat, ih]
    rw [hhead, htail]

theorem pyBin_length_le (k : Nat) :
    ∀ n : Nat, 0 < k → n < 2 ^ k → (pyBin n).length ≤ k := by
  induction k with
  | zero => intro n h; omega
  | succ k ih =>
    intro n _ hn
    rcases Nat.lt_or_ge n 2 with h2 | h2
    · interval_cases n
      · show (pyBin 0).length ≤ k + 1
        simp [pyBin]
      · rw [pyBin_one]
        simp
    · rw [pyBin_peel2 n h2, List.length_append]
      have hk : 0 < k := by
        by_contra hk0
        have : k = 0 := by omega
        subst this
        simp at hn
        omega
      have hhalf : n / 2 < 2 ^ k := by
        have h2k : 2 ^ (k + 1) = 2 * 2 ^ k := by ring
        omega
      have := ih (n / 2) hk hhalf
      simp only [List.length_cons, List.length_nil]
      omega

theorem pyIntBase2_of_ne_nil (s : List Bool) (h : s ≠ []) :
    pyIntBase2 s = Except.ok (bitsToNat s) := by
  unfold pyIntBase2
  rw [if_neg (by simpa [List.isEmpty_iff] using h)]

theorem pyIntBase2_cases (s : List Bool) :
    pyIntBase2 s = Except.ok (bitsToNat s)
    ∨ pyIntBase2 s = Except.error PyExc.valueError := by
  unfold pyIntBase2
  split_ifs with h
  · exact Or.inr rfl
  · exact Or.inl rfl

/-- C3 (amended): for every telemetry datagram of at least 6 bytes whose
first byte has its most significant bit set — so that the textual binary
rendering loses no leading zeros — the decoder extracts exactly the
layout's three leading fields (bits 2–17 as panel id, 18–21 as touch
type, 22–25 as strength of the datagram's big-endian bit string after the
1-bit framing prefix), and re-encoding each decoded value at its fixed
width reproduces those datagram bits exactly. -/
theorem touchDecode_roundtrip (data : List Nat) (h6 : 6 ≤ data.length)
    (hbytes : ∀ b ∈ data, b < 256) (hmsb : 128 ≤ data.headI) :
    ∃ ev, datagram_received data = Except.ok ev
      ∧ ev.panel_id = bitsToNat (((dataBits data).drop 1).take 16)
      ∧ ev.touch_type_id = bitsToNat ((((dataBits data).drop 1).drop 16).take 4)
      ∧ ev.strength = bitsToNat ((((dataBits data).drop 1).drop 20).take 4)
      ∧ natToBits 16 ev.panel_id = ((dataBits data).drop 1).take 16
      ∧ natToBits 4 ev.touch_type_id = (((dataBits data).drop 1).drop 16).take 4
      ∧ natToBits 4 ev.strength = (((dataBits data).drop 1).drop 20).take 4 := by
  cases data with
  | nil => simp at h6
  | cons d0 rest =>
    have hd0 : 128 ≤ d0 := by simpa using hmsb
    have hbin : pyBin (pyIntFromBytes (d0 :: rest)) = dataBits (d0 :: rest) :=
      pyBin_eq_dataBits d0 rest hd0 hbytes
    have hlist : 6 ≤ (d0 :: rest).length := h6
    have hlen : 47 ≤ ((dataBits (d0 :: rest)).drop 1).length := by
      rw [List.length_drop, dataBits_length]
      omega
    have h16 : (((dataBits (d0 :: rest)).drop 1).take 16).length = 16 := by
      rw [List.length_take]
      omega
    have h16ne : ((dataBits (d0 :: rest)).drop 1).take 16 ≠ [] :=
      List.ne_nil_of_length_pos (by omega)
    have h4a : ((((dataBits (d0 :: rest)).drop 1).drop 16).take 4).length = 4 := by
      rw [List.length_take, List.length_drop]
      omega
    have h4ane : (((dataBits (d0 :: rest)).drop 1).drop 16).take 4 ≠ [] :=
      List.ne_nil_of_length_pos (by omega)
    have h4b : ((((dataBits (d0 :: rest)).drop 1).drop 20).take 4).length = 4 := by
      rw [List.length_take, List.length_drop]
      omega
    have h4bne : (((dataBits (d0 :: rest)).drop 1).drop 20).take 4 ≠ [] :=
      List.ne_nil_of_length_pos (by omega)
    have h24ne : ((dataBits (d0 :: rest)).drop 1).drop 24 ≠ [] := by
      apply List.ne_nil_of_length_pos
      rw [List.length_drop]
      omega
    have hdr : datagram_received (d0 :: rest) = Except.ok
        ⟨bitsToNat (((dataBits (d0 :: rest)).drop 1).take 16),
         bitsToNat ((((dataBits (d0 :: rest)).drop 1).drop 16).take 4),
         bitsToNat ((((dataBits (d0 :: rest)).drop 1).drop 20).take 4),
         bitsToNat (((dataBits (d0 :: rest)).drop 1).drop 24)⟩ := by
      simp only [datagram_received]
      rw [hbin, pyIntBase2_of_ne_nil _ h16ne, pyIntBase2_of_ne_nil _ h4ane,
        pyIntBase2_of_ne_nil _ h4bne, pyIntBase2_of_ne_nil _ h24ne]
    refine ⟨_, hdr, rfl, rfl, rfl, ?_, ?_, ?_⟩
    · have := natToBits_bitsToNat (((dataBits (d0 :: rest)).drop 1).take 16)
      rw [h16] at this
      exact this
    · have := natToBits_bitsToNat ((((dataBits (d0 :: rest)).drop 1).drop 16).take 4)
      rw [h4a] at this
      exact this
    · have := natToBits_bitsToNat ((((dataBits (d0 :: rest)).drop 1).drop 20).take 4)
      rw [h4b] at this
      exact this

/-- C3 witness: the round-trip at the concrete 6-byte datagram
`ab cd ef 12 34 56` (first bit set). -/
theorem touchDecode_roundtrip_witness :
    ∃ ev, datagram_received [171, 205, 239, 18, 52, 86] = Except.ok ev
      ∧ ev.panel_id
          = bitsToNat (((dataBits [171, 205, 239, 18, 52, 86]).drop 1).take 16)
      ∧ ev.touch_type_id
          = bitsToNat ((((dataBits [171, 205, 239, 18, 52, 86]).drop 1).drop 16).take 4)
      ∧ ev.strength
          = bitsToNat ((((dataBits [171, 205, 239, 18, 52, 86]).drop 1).drop 20).take 4)
      ∧ natToBits 16 ev.panel_id
          = ((dataBits [171, 205, 239, 18, 52, 86]).drop 1).take 16
      ∧ natToBits 4 ev.touch_type_id
          = (((dataBits [171, 205, 239, 18, 52, 86]).drop 1).drop 16).take 4
      ∧ natToBits 4 ev.strength
          = (((dataBits [171, 205, 239, 18, 52, 86]).drop 1).drop 20).take 4 :=
  touchDecode_roundtrip [171, 205, 239, 18, 52, 86] (by decide) (by decide) (by decide)

/-- C3 counterexample: the claim fails for datagrams whose first bit is 0,
because `bin` strips leading zeros before the fixed slicing.  The
all-zero 6-byte datagram does not decode at all (`ValueError` from the
empty slice), and for `00 ff ff ff ff ff` the decoder returns panel id
65535 although the datagram's 16 bits after the framing prefix encode
511. -/
theorem touchDecode_misaligned_counterexample :
    datagram_received [0, 0, 0, 0, 0, 0] = Except.error PyExc.valueError
    ∧ datagram_received [0, 255, 255, 255, 255, 255]
        = Except.ok ⟨65535, 15, 15, 32767⟩
    ∧ bitsToNat (((dataBits [0, 255, 255, 255, 255, 255]).drop 1).take 16) = 511 := by
  refine ⟨rfl, rfl, by decide⟩

/-- When the digit string has nothing beyond index 24, the decoder fails
with `ValueError` (the `int("", 2)` of an empty slice), whatever the
earlier slices give. -/
theorem datagram_received_error_of_drop24 (data : List Nat)
    (h24 : ((pyBin (pyIntFromBytes data)).drop 1).drop 24 = []) :
    datagram_received data = Except.error PyExc.valueError := by
  simp only [datagram_received]
  have h4 : pyIntBase2 (((pyBin (pyIntFromBytes data)).drop 1).drop 24)
      = Except.error PyExc.valueError := by
    rw [h24]
    rfl
  rcases pyIntBase2_cases (((pyBin (pyIntFromBytes data)).drop 1).take 16)
      with h1 | h1 <;>
    rcases pyIntBase2_cases ((((pyBin (pyIntFromBytes data)).drop 1).drop 16).take 4)
      with h2 | h2 <;>
    rcases pyIntBase2_cases ((((pyBin (pyIntFromBytes data)).drop 1).drop 20).take 4)
      with h3 | h3 <;>
    rw [h1, h2, h3, h4]

/-- C4 (amended): for every datagram of at most 3 bytes — too short for
the 25-bit fixed layout — the decoder fails with Python's `ValueError`
(raised by `int` on an empty slice of the digit string); no
`MalformedTelemetry` condition exists anywhere in the code, and no
`TouchStreamEvent` is produced. -/
theorem touchDecode_short_valueError (data : List Nat) (hlen : data.length ≤ 3)
    (hbytes : ∀ b ∈ data, b < 256) :
    datagram_received data = Except.error PyExc.valueError := by
  apply datagram_received_error_of_drop24
  apply List.drop_eq_nil_of_le
  rw [List.length_drop]
  have hn : pyIntFromBytes data < 2 ^ 24 := by
    have h1 := pyIntFromBytes_lt data hbytes
    have h2 : (256 : Nat) ^ data.length ≤ 256 ^ 3 :=
      Nat.pow_le_pow_right (by omega) hlen
    have h3 : (256 : Nat) ^ 3 = 2 ^ 24 := by norm_num
    omega
  rcases Nat.eq_zero_or_pos (pyIntFromBytes data) with h0 | h0
  · rw [h0]
    norm_num [pyBin]
  · have := pyBin_length_le 24 (pyIntFromBytes data) (by omega) hn
    omega

/-- C4 witness: the 3-byte datagram `80 00 00` fails with `ValueError`. -/
theorem touchDecode_short_valueError_witness :
    datagram_received [128, 0, 0] = Except.error PyExc.valueError :=
  touchDecode_short_valueError [128, 0, 0] (by decide) (by decide)

/-- C4 counterexample: at the concrete too-short datagram `00 00` the
decoder fails with `ValueError`, which is not the `MalformedTelemetry`
condition the claim names (nothing in the code raises
`MalformedTelemetry`). -/
theorem touchDecode_no_malformedTelemetry_counterexample :
    datagram_received [0, 0] = Except.error PyExc.valueError
    ∧ PyExc.valueError ≠ PyExc.malformedTelemetry :=
  ⟨rfl, by decide⟩
